import Mathlib

/-!
Verification of the phonopy loader helper module (phonopy/cui/load_helper.py).

The module resolves crystal-structure, NAC-parameter and force-data sources
by strict precedence rules. External collaborators (file parsers, the HDF5
reader, the unit-conversion table, the physics engine object) are modelled
as oracle fields of an environment record `Env`; the working directory is
modelled by the list of files that exist in it. Side effects (which files
were read, which lines were printed) are tracked as an explicit event list.
Python dictionaries holding NAC parameters are given reference semantics
through an explicit heap (a list of records addressed by index), so that
aliasing and in-place mutation are expressible.
-/

namespace PhonopyLoad

/-- Opaque payload of a crystal cell object (external PhonopyAtoms data). -/
abbrev Cell := Nat

/-- Opaque payload standing for the forces array of a phonon object. -/
abbrev Forces := Nat

/-- A displacement-force dataset: a Python mapping, of which the embedding
keeps the observable parts used by the module, namely whether the keys
first_atoms and displacements are present, plus an opaque payload. -/
structure Dataset where
  has_first_atoms : Bool
  has_displacements : Bool
  payload : Nat
deriving DecidableEq, Repr

/-- NAC parameters: a Python mapping with a factor entry that can be absent
(`factor = none`), present with value None (`factor = some none`), or present
with a value (`factor = some (some v)`), plus an opaque payload standing for
the Born charges and dielectric data. -/
structure NacParams where
  factor : Option (Option Int)
  payload : Nat
deriving DecidableEq, Repr

/-- A force-constants tensor: the first two dimensions and the flat list of
elements (modelled over Int; only data flow matters here, no analysis). -/
structure FC where
  rows : Nat
  cols : Nat
  entries : List Int
deriving DecidableEq, Repr

/-- Elementwise multiplication of a tensor by a scalar factor. -/
def FC.scale (k : Int) (fc : FC) : FC :=
  { fc with entries := fc.entries.map (fun x => x * k) }

/-- Exceptions an external reader can raise: FileNotFoundError or any other
exception, identified by its message. -/
inductive PyExc where
  | fileNotFound (msg : String)
  | other (msg : String)
deriving DecidableEq, Repr

/-- Failures the physics engine can signal from produce_force_constants:
the typed ForcesetsNotFoundError or any other exception. -/
inductive PhEngineErr where
  | forcesetsNotFound
  | other (msg : String)
deriving DecidableEq, Repr

/-- Observable side effects: file reads of each kind and printed lines. -/
inductive Event where
  | readFCText (f : String)
  | readFCHdf5 (f : String)
  | readForceSets (f : String)
  | parsedBORN (f : String)
  | printed (s : String)
deriving DecidableEq, Repr

/-- Whether an event is a file read (as opposed to a printed line). -/
def Event.is_read : Event → Bool
  | .readFCText _ => true
  | .readFCHdf5 _ => true
  | .readForceSets _ => true
  | .parsedBORN _ => true
  | .printed _ => false

/-- The file reads among a list of events. -/
def file_reads (ev : List Event) : List Event :=
  ev.filter Event.is_read

/-- The mutable attributes of the Phonopy physics object that the module
reads or writes. Modelled from the spec: the Phonopy class itself is an
external collaborator (phonopy/api_phonopy.py is not part of this fragment);
the spec lists its mutable dataset, force_constants, mlp_dataset, supercell
and calculator attributes, and the module also reads the derived forces
attribute, which reflects the force data carried by the dataset. -/
structure PhonopyState where
  dataset : Option Dataset
  mlp_dataset : Option Dataset
  force_constants : Option FC
  forces : Option Forces
  supercell_natom : Nat
  calculator : Option String
  p2s_map : List Nat
deriving DecidableEq, Repr

/-- Argument form of a primitive matrix: the string sentinel (normally
auto) or an explicit rational matrix. -/
inductive PMatArg where
  | str (s : String)
  | mat (m : List (List Rat))
deriving DecidableEq, Repr

/-- A 3x3 integer supercell matrix, as a list of rows. -/
abbrev SMat := List (List Int)

/-- The 3x3 identity matrix np.eye(3). -/
def eye3 : SMat := [[1, 0, 0], [0, 1, 0], [0, 0, 1]]

/-- The environment of external collaborators and the working directory.
Each field is an oracle for one collaborator named in the import list of the
module; files is the set of names that exist in the working directory. -/
structure Env where
  files : List String
  forcesOfDataset : Dataset → Option Forces
  parse_BORN : Option Cell → String → NacParams
  parse_FORCE_SETS : Nat → String → Dataset
  parse_FORCE_CONSTANTS : String → List Nat → FC
  read_force_constants_hdf5 : String → List Nat → FC × Option String
  get_force_constant_conversion_factor : String → Option String → Int
  full_fc_to_compact_fc : PhonopyState → FC → FC
  compact_fc_to_full_fc : PhonopyState → FC → FC
  symmetrize_force_constants : FC → FC
  produce_force_constants : PhonopyState → Bool → Option String → Option String →
    Except PhEngineErr FC
  read_crystal_structure : String → Option String → Except PyExc (Option Cell × String)
  PhonopyAtoms_of : Cell → Cell
  get_primitive_matrix : PMatArg → Nat → PMatArg

/-- Whether the second character list starts with the first. -/
def starts_with : List Char → List Char → Bool
  | [], _ => true
  | _ :: _, [] => false
  | p :: ps, x :: xs => p = x && starts_with ps xs

/-- Whether a character list contains the pattern as a contiguous block. -/
def contains_seq (pat : List Char) : List Char → Bool
  | [] => starts_with pat []
  | x :: xs => starts_with pat (x :: xs) || contains_seq pat xs

/-- Splitting a character list at a separator character, the way the Python
str.split method does (an empty input gives one empty field). -/
def split_on_char (c : Char) : List Char → List (List Char)
  | [] => [[]]
  | x :: xs =>
      let r := split_on_char c xs
      if x = c then [] :: r
      else (x :: r.headD []) :: r.tail

/-- A verbose print: one printed line when the log level is nonzero. -/
def vprint (log_level : Nat) (s : String) : List Event :=
  if log_level ≠ 0 then [Event.printed s] else []

/-! ## NAC parameter resolver (get_nac_params) -/

/-- The heap of NAC parameter mappings: Python dictionaries addressed by
index, so that aliasing between the caller and the resolver is observable. -/
abbrev NacHeap := List NacParams

/-- The factor post-step of get_nac_params: if the mapping has no factor key
or its value is None, store nac_factor under the factor key; otherwise leave
the mapping unchanged. -/
def inject_factor (nac_factor : Option Int) (p : NacParams) : NacParams :=
  match p.factor with
  | none => { p with factor := some nac_factor }
  | some none => { p with factor := some nac_factor }
  | some (some _) => p

/-- Embeds get_nac_params. Returns the reference to the resolved mapping
(or none), the heap after the call, and the events. A parsed BORN file
allocates a fresh mapping; a caller-supplied mapping is used as-is (same
reference); the factor post-step mutates the resolved mapping in place. -/
def get_nac_params (env : Env) (heap : NacHeap) (primitive : Option Cell)
    (nac_params : Option Nat) (born_filename : Option String)
    (is_nac : Bool) (nac_factor : Option Int) (log_level : Nat) :
    Option Nat × NacHeap × List Event :=
  let resolved : Option Nat × NacHeap × List Event :=
    match born_filename with
    | some f =>
        (some heap.length, heap ++ [env.parse_BORN primitive f],
          Event.parsedBORN f ::
            vprint log_level ("NAC parameters were read from \"" ++ f ++ "\"."))
    | none =>
        match nac_params with
        | some r => (some r, heap, [])
        | none =>
            if is_nac = true ∧ "BORN" ∈ env.files then
              (some heap.length, heap ++ [env.parse_BORN primitive "BORN"],
                Event.parsedBORN "BORN" ::
                  vprint log_level "NAC params were read from \"BORN\".")
            else
              (none, heap, [])
  match resolved with
  | (none, h, ev) => (none, h, ev)
  | (some i, h, ev) =>
      match h[i]? with
      | none => (some i, h, ev)
      | some p => (some i, h.set i (inject_factor nac_factor p), ev)

/-! ## Structure resolver (get_cell_settings) -/

/-- Errors get_cell_settings can raise: the RuntimeError for a missing cell
specification, a propagated reader exception, or the RuntimeError wrapping a
reader failure with the instructional message and the original cause. -/
inductive CellErr where
  | cellNotSpecified (msg : String)
  | pyerr (e : PyExc)
  | guidance (msg : String) (cause : PyExc)
deriving DecidableEq, Repr

/-- Whether an error is the configuration-guidance wrapping. -/
def CellErr.is_guidance : CellErr → Bool
  | .guidance _ _ => true
  | _ => false

/-- The instructional message of the guidance error raised by the crystal
structure reading wrapper (the apostrophes the source places around the
calculator placeholder are omitted from the embedding). -/
def guidance_msg : String :=
  "============================ phonopy.load ============================\n" ++
  "  Reading crystal structure file failed in phonopy.load.\n" ++
  "  Maybe phonopy.load(..., calculator=<calculator name>) expected?\n" ++
  "============================ phonopy.load ============================"

/-- Embeds the private crystal-structure reading wrapper of the module: it
calls the external reader; a FileNotFoundError propagates unchanged; any
other failure is re-raised as a RuntimeError carrying the instructional
message, with the original exception as its cause. -/
def read_crystal_structure_wrapped (env : Env) (filename : String)
    (interface_mode : Option String) : Except CellErr (Option Cell × String) :=
  match env.read_crystal_structure filename interface_mode with
  | .ok v => .ok v
  | .error (PyExc.fileNotFound m) => .error (.pyerr (.fileNotFound m))
  | .error (PyExc.other m) => .error (.guidance guidance_msg (.other m))

/-- The primitive-matrix argument after the auto-sentinel normalization at
the top of get_cell_settings: none becomes the auto string; the literal auto
string maps to itself; everything else passes through. -/
def resolve_pmat_arg : Option PMatArg → PMatArg
  | none => .str "auto"
  | some p => p

/-- Embeds get_cell_settings. Returns the resolved (cell, supercell matrix,
primitive matrix) or the raised error, plus printed lines. The source calls
get_primitive_matrix after the branch; the oracle is total, so computing it
up front is observationally the same. -/
def get_cell_settings (env : Env) (supercell_matrix : Option SMat)
    (primitive_matrix : Option PMatArg) (unitcell : Option Cell) (supercell : Option Cell)
    (unitcell_filename : Option String) (supercell_filename : Option String)
    (calculator : Option String) (symprec : Nat) (log_level : Nat) :
    Except CellErr (Cell × Option SMat × PMatArg) × List Event :=
  let pmat := env.get_primitive_matrix (resolve_pmat_arg primitive_matrix) symprec
  match unitcell_filename with
  | some f =>
      match read_crystal_structure_wrapped env f calculator with
      | .error e => (.error e, [])
      | .ok (cellOpt, info) =>
          let ev := vprint log_level ("Unit cell structure was read from \"" ++ info ++ "\".")
          match cellOpt with
          | none => (.error (.pyerr (.fileNotFound (info ++ " could not be found."))), ev)
          | some c => (.ok (c, supercell_matrix, pmat), ev)
  | none =>
      match supercell_filename with
      | some f =>
          match env.read_crystal_structure f calculator with
          | .error e => (.error (.pyerr e), [])
          | .ok (cellOpt, info) =>
              let ev := vprint log_level ("Supercell structure was read from \"" ++ info ++ "\".")
              match cellOpt with
              | none => (.error (.pyerr (.fileNotFound (info ++ " could not be found."))), ev)
              | some c => (.ok (c, some eye3, pmat), ev)
      | none =>
          match unitcell with
          | some u => (.ok (env.PhonopyAtoms_of u, supercell_matrix, pmat), [])
          | none =>
              match supercell with
              | some s => (.ok (env.PhonopyAtoms_of s, some eye3, pmat), [])
              | none => (.error (.cellNotSpecified "Cell has to be specified."), [])

/-! ## Format normalizer and force-data resolver -/

/-- Embeds read_force_constants_from_hdf5: reads the tensor and the optional
embedded physical-unit label from the container; with no label the tensor is
returned unconverted; with a label every element is multiplied by the
conversion factor obtained from the unit table for that unit and the
calculator. -/
def read_force_constants_from_hdf5 (env : Env) (filename : String)
    (p2s_map : List Nat) (calculator : Option String) : FC × List Event :=
  ((match (env.read_force_constants_hdf5 filename p2s_map).2 with
    | none => (env.read_force_constants_hdf5 filename p2s_map).1
    | some u =>
        FC.scale (env.get_force_constant_conversion_factor u calculator)
          (env.read_force_constants_hdf5 filename p2s_map).1),
   [Event.readFCHdf5 filename])

/-- The dot-separated fields of a filename, as the Python split on dots. -/
def dot_split (filename : String) : List (List Char) :=
  split_on_char '.' filename.data

/-- The loading dispatch of the private force-constants file reader: a name
with more than one dot-separated field whose last field is hdf5 routes to
the HDF5 reader; anything else to the plain-text parser. -/
def load_fc_raw (env : Env) (phonon : PhonopyState) (filename : String) : FC × List Event :=
  if 1 < (dot_split filename).length ∧ (dot_split filename).getLast? = some "hdf5".data then
    read_force_constants_from_hdf5 env filename phonon.p2s_map phonon.calculator
  else
    (env.parse_FORCE_CONSTANTS filename phonon.p2s_map, [Event.readFCText filename])

/-- The shape normalization the private force-constants file reader applies
after loading: a tensor with equal first two dimensions when the caller
requested the compact layout is reduced to compact; a tensor with unequal
first two dimensions when the caller requested the full layout is expanded
to full; otherwise the tensor is returned unchanged. -/
def normalize_fc_shape (env : Env) (phonon : PhonopyState) (is_compact_fc : Bool)
    (fc : FC) : FC :=
  if is_compact_fc = true ∧ fc.rows = fc.cols then env.full_fc_to_compact_fc phonon fc
  else if is_compact_fc = false ∧ fc.rows ≠ fc.cols then env.compact_fc_to_full_fc phonon fc
  else fc

/-- The shape normalization as the specification sentence words it: a tensor
with equal first two dimensions when the caller requested the full layout is
expanded to full; a tensor with unequal first two dimensions when the caller
requested the compact layout is reduced to compact; otherwise unchanged.
Stated from the words of the spec, for comparison with normalize_fc_shape,
which embeds the code. -/
def normalize_fc_shape_spec (env : Env) (phonon : PhonopyState) (is_compact_fc : Bool)
    (fc : FC) : FC :=
  if is_compact_fc = false ∧ fc.rows = fc.cols then env.compact_fc_to_full_fc phonon fc
  else if is_compact_fc = true ∧ fc.rows ≠ fc.cols then env.full_fc_to_compact_fc phonon fc
  else fc

/-- Embeds the private force-constants file reader: load by suffix dispatch,
then normalize the layout to the caller request. The log level is part of
the source signature; the prints it gates happen inside the external
converters. -/
def read_force_constants_file (env : Env) (phonon : PhonopyState) (filename : String)
    (is_compact_fc : Bool) (log_level : Nat) : FC × List Event :=
  (normalize_fc_shape env phonon is_compact_fc (load_fc_raw env phonon filename).1,
   (load_fc_raw env phonon filename).2)

/-- The seeding step of set_dataset_and_force_constants: a dataset from the
session file is attached as the machine-learning training set or as the
ordinary dataset, and force constants from the session file are attached
directly. Modelled from the spec for the Phonopy collaborator: assigning the
dataset attribute makes the derived forces attribute reflect the new
dataset, which the forcesOfDataset oracle stands for. -/
def seed_phonon (env : Env) (phonon : PhonopyState) (dataset : Option Dataset)
    (fc : Option FC) (use_pypolymlp : Bool) : PhonopyState :=
  let s1 :=
    match dataset with
    | none => phonon
    | some d =>
        if use_pypolymlp = true then { phonon with mlp_dataset := some d }
        else { phonon with dataset := some d, forces := env.forcesOfDataset d }
  match fc with
  | none => s1
  | some f => { s1 with force_constants := some f }

/-- The force-data source resolved by the cascade: at most one of a tensor
or a dataset, the filenames involved, and the file-read events. -/
structure SourceRes where
  fc : Option FC
  dataset : Option Dataset
  fc_name : Option String
  fs_name : Option String
  events : List Event
deriving DecidableEq, Repr

/-- The source-selection cascade of set_dataset_and_force_constants: an
explicit force-constants filename wins; else an explicit force-sets
filename; else, when the object has neither forces nor force constants, the
conventional files FORCE_CONSTANTS, force_constants.hdf5, FORCE_SETS in that
order; else nothing. -/
def resolve_fc_source (env : Env) (s2 : PhonopyState) (natom : Nat)
    (force_constants_filename force_sets_filename : Option String)
    (is_compact_fc : Bool) (log_level : Nat) : SourceRes :=
  match force_constants_filename with
  | some f =>
      { fc := some (read_force_constants_file env s2 f is_compact_fc log_level).1,
        dataset := none, fc_name := some f, fs_name := none,
        events := (read_force_constants_file env s2 f is_compact_fc log_level).2 }
  | none =>
      match force_sets_filename with
      | some g =>
          { fc := none, dataset := some (env.parse_FORCE_SETS natom g),
            fc_name := none, fs_name := some g, events := [Event.readForceSets g] }
      | none =>
          if s2.forces = none ∧ s2.force_constants = none then
            if "FORCE_CONSTANTS" ∈ env.files then
              { fc := some
                  (read_force_constants_file env s2 "FORCE_CONSTANTS" is_compact_fc log_level).1,
                dataset := none, fc_name := some "FORCE_CONSTANTS", fs_name := none,
                events :=
                  (read_force_constants_file env s2 "FORCE_CONSTANTS" is_compact_fc log_level).2 }
            else if "force_constants.hdf5" ∈ env.files then
              { fc := some
                  (read_force_constants_file env s2 "force_constants.hdf5"
                    is_compact_fc log_level).1,
                dataset := none, fc_name := some "force_constants.hdf5", fs_name := none,
                events :=
                  (read_force_constants_file env s2 "force_constants.hdf5"
                    is_compact_fc log_level).2 }
            else if "FORCE_SETS" ∈ env.files then
              { fc := none, dataset := some (env.parse_FORCE_SETS natom "FORCE_SETS"),
                fc_name := none, fs_name := some "FORCE_SETS",
                events := [Event.readForceSets "FORCE_SETS"] }
            else
              { fc := none, dataset := none, fc_name := none, fs_name := none, events := [] }
          else
            { fc := none, dataset := none, fc_name := none, fs_name := none, events := [] }

/-- Embeds the private force-constant production step: the engine produces
the tensor (full or compact per the request); on success an optional
symmetrization follows; the typed forcesets-not-found failure is caught,
optionally logged and non-fatal; any other engine failure propagates. -/
def produce_force_constants (env : Env) (phonon : PhonopyState)
    (fc_calculator fc_calculator_options : Option String)
    (symmetrize_fc is_compact_fc : Bool) (log_level : Nat) :
    PhonopyState × List Event × Option PhEngineErr :=
  match env.produce_force_constants phonon (!is_compact_fc) fc_calculator
      fc_calculator_options with
  | .error PhEngineErr.forcesetsNotFound =>
      (phonon, vprint log_level "Force constants not produced due to force set not found.",
        none)
  | .error (PhEngineErr.other m) => (phonon, [], some (PhEngineErr.other m))
  | .ok f =>
      if symmetrize_fc = true then
        ({ phonon with force_constants := some (env.symmetrize_force_constants f) },
          vprint log_level "Force constants were symmetrized.", none)
      else
        ({ phonon with force_constants := some f }, [], none)

/-- Embeds set_dataset_and_force_constants: seed from the session data,
resolve a source by the cascade, install a loaded tensor with priority over
datasets, otherwise install a loaded dataset (overwriting an existing one,
with a verbose note when real displacement data is discarded), and finally
produce force constants when requested. Returns the mutated object, the
events, and the error of an uncaught engine failure. -/
def set_dataset_and_force_constants (env : Env) (phonon : PhonopyState)
    (dataset : Option Dataset) (fc : Option FC)
    (force_constants_filename force_sets_filename : Option String)
    (fc_calculator fc_calculator_options : Option String)
    (produce_fc symmetrize_fc is_compact_fc use_pypolymlp : Bool)
    (log_level : Nat) : PhonopyState × List Event × Option PhEngineErr :=
  let natom := phonon.supercell_natom
  let s2 := seed_phonon env phonon dataset fc use_pypolymlp
  let r := resolve_fc_source env s2 natom force_constants_filename force_sets_filename
    is_compact_fc log_level
  let step3 : PhonopyState × List Event :=
    match r.fc with
    | some f =>
        ({ s2 with force_constants := some f },
          vprint log_level ("Force constants were read from \"" ++ r.fc_name.getD "" ++ "\"."))
    | none => (s2, [])
  let s3 := step3.1
  if s3.force_constants = none then
    let step4 : PhonopyState × List Event :=
      match r.dataset with
      | some d =>
          let is_overwritten :=
            match s3.dataset with
            | none => false
            | some old => old.has_first_atoms || old.has_displacements
          ({ s3 with dataset := some d, forces := env.forcesOfDataset d },
            vprint log_level ("Force sets were read from \"" ++ r.fs_name.getD "" ++ "\".")
              ++ (if is_overwritten then
                    vprint log_level
                      ("Displacements were overwritten by \"" ++ r.fs_name.getD "" ++ "\".")
                  else []))
      | none => (s3, [])
    let s4 := step4.1
    if produce_fc = true then
      let p := produce_force_constants env s4 fc_calculator fc_calculator_options
        symmetrize_fc is_compact_fc log_level
      (p.1, r.events ++ step3.2 ++ step4.2 ++ p.2.1, p.2.2)
    else
      (s4, r.events ++ step3.2 ++ step4.2, none)
  else
    (s3, r.events ++ step3.2, none)

/-! ## Concrete environments for witnesses and counterexamples -/

/-- A sample NAC mapping with no factor key. -/
def demo_params : NacParams := { factor := none, payload := 7 }

/-- A concrete environment exercising the NAC resolver. -/
def envN : Env := {
  files := ["BORN"],
  forcesOfDataset := fun _ => none,
  parse_BORN := fun _ f => { factor := none, payload := f.length },
  parse_FORCE_SETS := fun n _ => { has_first_atoms := true, has_displacements := false, payload := n },
  parse_FORCE_CONSTANTS := fun _ _ => { rows := 2, cols := 2, entries := [1] },
  read_force_constants_hdf5 := fun _ _ => ({ rows := 2, cols := 2, entries := [3] }, none),
  get_force_constant_conversion_factor := fun _ _ => 2,
  full_fc_to_compact_fc := fun _ fc => { fc with rows := 1 },
  compact_fc_to_full_fc := fun _ fc => { fc with rows := fc.cols },
  symmetrize_force_constants := fun fc => fc,
  produce_force_constants := fun _ _ _ _ => .error .forcesetsNotFound,
  read_crystal_structure := fun _ _ => .ok (some 1, "POSCAR"),
  PhonopyAtoms_of := fun c => c,
  get_primitive_matrix := fun p _ => p }

/-- A concrete environment whose structure reader fails with an exception
other than FileNotFoundError. -/
def envB : Env :=
  { envN with read_crystal_structure := fun _ _ => .error (.other "unsupported format") }

/-- A concrete phonon object with nothing attached yet. -/
def phN : PhonopyState :=
  { dataset := none, mlp_dataset := none, force_constants := none, forces := none,
    supercell_natom := 8, calculator := none, p2s_map := [0, 4] }

/-- A concrete phonon object already holding a displacement dataset with
first_atoms entries. -/
def phD : PhonopyState :=
  { phN with dataset := some { has_first_atoms := true, has_displacements := false, payload := 3 } }

/-- A concrete environment whose compact-to-full converter visibly changes
the tensor shape. -/
def envC : Env :=
  { envN with compact_fc_to_full_fc := fun _ fc => { rows := 4, cols := 4, entries := fc.entries } }

/-! ## Helper lemmas on list heaps -/

theorem heap_get_append (l : List NacParams) (a : NacParams) :
    (l ++ [a])[l.length]? = some a := by
  induction l with
  | nil => rfl
  | cons x xs ih => simp [ih]

theorem heap_set_append (l : List NacParams) (a b : NacParams) :
    (l ++ [a]).set l.length b = l ++ [b] := by
  induction l with
  | nil => rfl
  | cons x xs ih => simp [List.set, ih]

/-! ## Theorems for the NAC resolver claims -/

/-- C5: NAC parameter resolution in get_nac_params follows the strict order:
an explicit born_filename is parsed first (even when a nac_params mapping is
also supplied); otherwise an explicit nac_params mapping is used as-is;
otherwise, when NAC is enabled and a file literally named BORN exists in the
working directory, that file is parsed; otherwise none is returned. With
born_filename distinct from BORN, the BORN file is never parsed. -/
theorem C5_nac_resolution_order (env : Env) (heap : NacHeap) (primitive : Option Cell)
    (nac_params : Option Nat) (is_nac : Bool) (nac_factor : Option Int) (log_level : Nat) :
    (∀ f,
      (get_nac_params env heap primitive nac_params (some f) is_nac nac_factor log_level).1
        = some heap.length ∧
      (get_nac_params env heap primitive nac_params (some f) is_nac nac_factor log_level).2.1
        = heap ++ [inject_factor nac_factor (env.parse_BORN primitive f)] ∧
      Event.parsedBORN f ∈
        (get_nac_params env heap primitive nac_params (some f) is_nac nac_factor log_level).2.2 ∧
      (f ≠ "BORN" → Event.parsedBORN "BORN" ∉
        (get_nac_params env heap primitive nac_params (some f) is_nac nac_factor log_level).2.2))
    ∧ (∀ r,
      (get_nac_params env heap primitive (some r) none is_nac nac_factor log_level).1 = some r ∧
      ∀ g, Event.parsedBORN g ∉
        (get_nac_params env heap primitive (some r) none is_nac nac_factor log_level).2.2)
    ∧ (is_nac = true → "BORN" ∈ env.files →
      (get_nac_params env heap primitive none none is_nac nac_factor log_level).1
        = some heap.length ∧
      (get_nac_params env heap primitive none none is_nac nac_factor log_level).2.1
        = heap ++ [inject_factor nac_factor (env.parse_BORN primitive "BORN")] ∧
      Event.parsedBORN "BORN" ∈
        (get_nac_params env heap primitive none none is_nac nac_factor log_level).2.2)
    ∧ ((is_nac = false ∨ "BORN" ∉ env.files) →
      get_nac_params env heap primitive none none is_nac nac_factor log_level
        = (none, heap, [])) := by
  refine ⟨fun f => ?_, fun r => ?_, fun hn hb => ?_, fun h => ?_⟩
  · simp only [get_nac_params, heap_get_append, heap_set_append]
    refine ⟨trivial, trivial, by simp, fun hf => ?_⟩
    simp [vprint]
    intro hcontra
    exact hf hcontra.symm
  · cases h : heap[r]? with
    | none => simp [get_nac_params, h]
    | some p => simp [get_nac_params, h]
  · simp only [get_nac_params, hn, hb, heap_get_append, heap_set_append]
    simp
  · rcases h with h | h
    · simp [get_nac_params, h]
    · simp [get_nac_params, h]

/-- C5 witness: with born_filename BORN_test while a BORN file exists, the
BORN file is never parsed. -/
theorem C5_witness :
    Event.parsedBORN "BORN" ∉
      (get_nac_params envN [] none none (some "BORN_test") true (some 14) 0).2.2 :=
  ((C5_nac_resolution_order envN [] none none true (some 14) 0).1 "BORN_test").2.2.2
    (by decide)

/-- C8: every non-none mapping resolved by get_nac_params passes through the
factor post-step inject_factor, which injects the caller-supplied default
factor verbatim when the factor key is absent or set to none, and leaves a
mapping with a present non-none factor unchanged. -/
theorem C8_factor_injection (env : Env) (heap : NacHeap) (primitive : Option Cell)
    (nac_params : Option Nat) (is_nac : Bool) (nac_factor : Option Int) (log_level : Nat) :
    (∀ p : NacParams, p.factor = none →
      inject_factor nac_factor p = { p with factor := some nac_factor })
    ∧ (∀ p : NacParams, p.factor = some none →
      inject_factor nac_factor p = { p with factor := some nac_factor })
    ∧ (∀ (p : NacParams) (v : Int), p.factor = some (some v) →
      inject_factor nac_factor p = p)
    ∧ (∀ f,
      (get_nac_params env heap primitive nac_params (some f) is_nac nac_factor log_level).2.1
        = heap ++ [inject_factor nac_factor (env.parse_BORN primitive f)])
    ∧ (∀ (r : Nat) (p : NacParams), heap[r]? = some p →
      (get_nac_params env heap primitive (some r) none is_nac nac_factor log_level).2.1
        = heap.set r (inject_factor nac_factor p))
    ∧ (is_nac = true → "BORN" ∈ env.files →
      (get_nac_params env heap primitive none none is_nac nac_factor log_level).2.1
        = heap ++ [inject_factor nac_factor (env.parse_BORN primitive "BORN")]) := by
  refine ⟨fun p hp => ?_, fun p hp => ?_, fun p v hp => ?_, fun f => ?_,
    fun r p hr => ?_, fun hn hb => ?_⟩
  · simp [inject_factor, hp]
  · simp [inject_factor, hp]
  · simp [inject_factor, hp]
  · simp only [get_nac_params, heap_get_append, heap_set_append]
  · simp [get_nac_params, hr]
  · simp only [get_nac_params, hn, hb, heap_get_append, heap_set_append]
    simp

/-- C8 witness: a mapping without a factor key gets the default injected. -/
theorem C8_witness :
    (get_nac_params envN [demo_params] none (some 0) none true (some 14) 0).2.1
      = [demo_params].set 0 (inject_factor (some 14) demo_params) :=
  (C8_factor_injection envN [demo_params] none (some 0) true (some 14) 0).2.2.2.2.1
    0 demo_params (by decide)

/-- C10: when born_filename is none and a nac_params mapping is supplied, the
resolver returns the very reference the caller passed in, and the factor
injection mutates that mapping in place on the heap (no copy is allocated:
the heap keeps its length). -/
theorem C10_nac_params_alias (env : Env) (heap : NacHeap) (primitive : Option Cell)
    (is_nac : Bool) (nac_factor : Option Int) (log_level : Nat) (r : Nat) (p : NacParams)
    (h : heap[r]? = some p) :
    (get_nac_params env heap primitive (some r) none is_nac nac_factor log_level).1 = some r
    ∧ (get_nac_params env heap primitive (some r) none is_nac nac_factor log_level).2.1
      = heap.set r (inject_factor nac_factor p)
    ∧ (get_nac_params env heap primitive (some r) none is_nac nac_factor log_level).2.1.length
      = heap.length := by
  simp [get_nac_params, h]

/-- C10 witness: the caller mapping at index zero is returned and mutated in
place. -/
theorem C10_witness :
    (get_nac_params envN [demo_params] none (some 0) none true (some 14) 0).1 = some 0
    ∧ (get_nac_params envN [demo_params] none (some 0) none true (some 14) 0).2.1
      = [demo_params].set 0 (inject_factor (some 14) demo_params)
    ∧ (get_nac_params envN [demo_params] none (some 0) none true (some 14) 0).2.1.length
      = [demo_params].length :=
  C10_nac_params_alias envN [demo_params] none true (some 14) 0 0 demo_params (by decide)

/-! ## Theorems for the structure resolver claims -/

/-- C2: get_cell_settings picks the first matching source in the order
unitcell_filename, supercell_filename, unitcell object, supercell object; it
returns the caller supercell matrix exactly when a unit-cell source wins and
the identity matrix exactly when a supercell source wins; with none of the
four sources given it raises the cell-not-specified error. -/
theorem C2_cell_settings_precedence (env : Env) (supercell_matrix : Option SMat)
    (primitive_matrix : Option PMatArg) (unitcell supercell : Option Cell)
    (calculator : Option String) (symprec log_level : Nat) :
    (∀ f g c info, read_crystal_structure_wrapped env f calculator = .ok (some c, info) →
      (get_cell_settings env supercell_matrix primitive_matrix unitcell supercell
        (some f) g calculator symprec log_level).1
        = .ok (c, supercell_matrix,
            env.get_primitive_matrix (resolve_pmat_arg primitive_matrix) symprec))
    ∧ (∀ f c info, env.read_crystal_structure f calculator = .ok (some c, info) →
      (get_cell_settings env supercell_matrix primitive_matrix unitcell supercell
        none (some f) calculator symprec log_level).1
        = .ok (c, some eye3,
            env.get_primitive_matrix (resolve_pmat_arg primitive_matrix) symprec))
    ∧ (∀ u,
      (get_cell_settings env supercell_matrix primitive_matrix (some u) supercell
        none none calculator symprec log_level).1
        = .ok (env.PhonopyAtoms_of u, supercell_matrix,
            env.get_primitive_matrix (resolve_pmat_arg primitive_matrix) symprec))
    ∧ (∀ s,
      (get_cell_settings env supercell_matrix primitive_matrix none (some s)
        none none calculator symprec log_level).1
        = .ok (env.PhonopyAtoms_of s, some eye3,
            env.get_primitive_matrix (resolve_pmat_arg primitive_matrix) symprec))
    ∧ ((get_cell_settings env supercell_matrix primitive_matrix none none
        none none calculator symprec log_level).1
        = .error (.cellNotSpecified "Cell has to be specified.")) := by
  refine ⟨fun f g c info h => ?_, fun f c info h => ?_, fun u => ?_, fun s => ?_, ?_⟩
  · simp [get_cell_settings, h]
  · simp [get_cell_settings, h]
  · simp [get_cell_settings]
  · simp [get_cell_settings]
  · simp [get_cell_settings]

/-- C2 witness: with no cell source at all the resolver fails with the
cell-not-specified error. -/
theorem C2_witness :
    (get_cell_settings envN none none none none none none none 0 0).1
      = .error (.cellNotSpecified "Cell has to be specified.") :=
  (C2_cell_settings_precedence envN none none none none none 0 0).2.2.2.2

/-- C4 counterexample: for the supercell role, a reader failure that is not
a FileNotFoundError propagates as the raw exception instead of being wrapped
into a configuration-guidance error, contradicting the claim. -/
theorem C4_counterexample :
    (get_cell_settings envB none none none none none (some "SPOSCAR") none 0 0).1
      = .error (.pyerr (.other "unsupported format"))
    ∧ CellErr.is_guidance (.pyerr (.other "unsupported format")) = false :=
  ⟨rfl, rfl⟩

/-- C4 amended: a file-not-found failure from the external reader propagates
unchanged for both roles; for the unit-cell role any other reader failure is
re-raised as a configuration-guidance error whose message instructs the
caller to supply a calculator hint and whose cause is the original
exception; for the supercell role any other reader failure also propagates
unchanged, unwrapped. -/
theorem C4_reader_error_wrapping (env : Env) (supercell_matrix : Option SMat)
    (primitive_matrix : Option PMatArg) (unitcell supercell : Option Cell)
    (calculator : Option String) (symprec log_level : Nat) (f : String) :
    (∀ m, env.read_crystal_structure f calculator = .error (.fileNotFound m) →
      read_crystal_structure_wrapped env f calculator = .error (.pyerr (.fileNotFound m))
      ∧ (get_cell_settings env supercell_matrix primitive_matrix unitcell supercell
          (some f) none calculator symprec log_level).1 = .error (.pyerr (.fileNotFound m)))
    ∧ (∀ m, env.read_crystal_structure f calculator = .error (.other m) →
      read_crystal_structure_wrapped env f calculator
        = .error (.guidance guidance_msg (.other m))
      ∧ (get_cell_settings env supercell_matrix primitive_matrix unitcell supercell
          (some f) none calculator symprec log_level).1
        = .error (.guidance guidance_msg (.other m)))
    ∧ (∀ e, env.read_crystal_structure f calculator = .error e →
      (get_cell_settings env supercell_matrix primitive_matrix unitcell supercell
          none (some f) calculator symprec log_level).1 = .error (.pyerr e))
    ∧ (contains_seq "calculator".data guidance_msg.data = true) := by
  refine ⟨fun m h => ?_, fun m h => ?_, fun e h => ?_, ?_⟩
  · constructor
    · simp [read_crystal_structure_wrapped, h]
    · simp [get_cell_settings, read_crystal_structure_wrapped, h]
  · constructor
    · simp [read_crystal_structure_wrapped, h]
    · simp [get_cell_settings, read_crystal_structure_wrapped, h]
  · simp [get_cell_settings, h]
  · decide

/-- C4 witness: a non-file-not-found reader failure in the unit-cell role is
wrapped into the guidance error with the original cause. -/
theorem C4_witness :
    read_crystal_structure_wrapped envB "POSCAR" none
      = .error (.guidance guidance_msg (.other "unsupported format")) :=
  ((C4_reader_error_wrapping envB none none none none none 0 0 "POSCAR").2.1
    "unsupported format" rfl).1

/-! ## Helper lemmas on events and the force-data steps -/

theorem file_reads_append (a b : List Event) :
    file_reads (a ++ b) = file_reads a ++ file_reads b := by
  simp [file_reads]

theorem file_reads_vprint (log_level : Nat) (s : String) :
    file_reads (vprint log_level s) = [] := by
  unfold vprint
  split <;> simp [file_reads, Event.is_read]

theorem load_fc_raw_events (env : Env) (phonon : PhonopyState) (filename : String) :
    (load_fc_raw env phonon filename).2 = [Event.readFCHdf5 filename]
    ∨ (load_fc_raw env phonon filename).2 = [Event.readFCText filename] := by
  unfold load_fc_raw
  split
  · exact Or.inl rfl
  · exact Or.inr rfl

theorem file_reads_load_fc_raw (env : Env) (phonon : PhonopyState) (filename : String) :
    file_reads (load_fc_raw env phonon filename).2 = (load_fc_raw env phonon filename).2 := by
  rcases load_fc_raw_events env phonon filename with h | h <;> rw [h] <;> rfl

theorem readForceSets_not_mem_load (env : Env) (phonon : PhonopyState) (filename n : String) :
    Event.readForceSets n ∉ (load_fc_raw env phonon filename).2 := by
  rcases load_fc_raw_events env phonon filename with h | h <;> simp [h]

theorem produce_force_constants_dataset (env : Env) (s : PhonopyState)
    (fcc opts : Option String) (symf compact : Bool) (ll : Nat) :
    (produce_force_constants env s fcc opts symf compact ll).1.dataset = s.dataset := by
  unfold produce_force_constants
  cases h : env.produce_force_constants s (!compact) fcc opts with
  | error e => cases e <;> simp
  | ok f => by_cases hs : symf = true <;> simp [hs]

theorem file_reads_nil : file_reads [] = [] := rfl

theorem file_reads_readForceSets (n : String) (rest : List Event) :
    file_reads (Event.readForceSets n :: rest) = Event.readForceSets n :: file_reads rest := by
  simp [file_reads, Event.is_read]

theorem file_reads_ite_prints (c : Prop) [Decidable c] (ll : Nat) (s : String) :
    file_reads (if c then vprint ll s else []) = [] := by
  split
  · exact file_reads_vprint ll s
  · rfl

theorem file_reads_produce (env : Env) (s : PhonopyState)
    (fcc opts : Option String) (symf compact : Bool) (ll : Nat) :
    file_reads (produce_force_constants env s fcc opts symf compact ll).2.1 = [] := by
  unfold produce_force_constants
  cases h : env.produce_force_constants s (!compact) fcc opts with
  | error e => cases e <;> simp [file_reads_vprint, file_reads_nil]
  | ok f => by_cases hs : symf = true <;> simp [hs, file_reads_vprint, file_reads_nil]

theorem seed_phonon_fc (env : Env) (phonon : PhonopyState) (dataset : Option Dataset)
    (use_pypolymlp : Bool) :
    (seed_phonon env phonon dataset none use_pypolymlp).force_constants
      = phonon.force_constants := by
  unfold seed_phonon
  cases dataset with
  | none => rfl
  | some d => by_cases h : use_pypolymlp = true <;> simp [h]

/-! ## Theorems for the format normalizer and force-data claims -/

/-- C9: read_force_constants_from_hdf5 returns the tensor unconverted when
the container carries no embedded unit label; when a unit label is present
(in particular whenever it differs from the calculator native unit), every
tensor element is multiplied by the conversion factor the unit table gives
for that unit and calculator, the shape staying unchanged. -/
theorem C9_hdf5_unit_conversion (env : Env) (filename : String) (p2s_map : List Nat)
    (calculator : Option String) :
    ((env.read_force_constants_hdf5 filename p2s_map).2 = none →
      (read_force_constants_from_hdf5 env filename p2s_map calculator).1
        = (env.read_force_constants_hdf5 filename p2s_map).1)
    ∧ (∀ u, (env.read_force_constants_hdf5 filename p2s_map).2 = some u →
      (read_force_constants_from_hdf5 env filename p2s_map calculator).1.entries
        = (env.read_force_constants_hdf5 filename p2s_map).1.entries.map
            (fun x => x * env.get_force_constant_conversion_factor u calculator)
      ∧ (read_force_constants_from_hdf5 env filename p2s_map calculator).1.rows
        = (env.read_force_constants_hdf5 filename p2s_map).1.rows
      ∧ (read_force_constants_from_hdf5 env filename p2s_map calculator).1.cols
        = (env.read_force_constants_hdf5 filename p2s_map).1.cols) := by
  constructor
  · intro h
    simp [read_force_constants_from_hdf5, h]
  · intro u h
    refine ⟨?_, ?_, ?_⟩ <;> simp [read_force_constants_from_hdf5, h, FC.scale]

/-- C9 witness: a container with no embedded unit label is returned
unconverted. -/
theorem C9_witness :
    (read_force_constants_from_hdf5 envN "force_constants.hdf5" [0, 4] none).1
      = (envN.read_force_constants_hdf5 "force_constants.hdf5" [0, 4]).1 :=
  (C9_hdf5_unit_conversion envN "force_constants.hdf5" [0, 4] none).1 rfl

/-- C3 counterexample: a loaded square tensor with the full layout
requested is returned unchanged by the code, while the claim prescribes an
expansion to full; at this concrete input the two differ. -/
theorem C3_counterexample :
    (read_force_constants_file envC phN "FORCE_CONSTANTS" false 0).1
        = { rows := 2, cols := 2, entries := [1] }
    ∧ normalize_fc_shape_spec envC phN false (load_fc_raw envC phN "FORCE_CONSTANTS").1
        = { rows := 4, cols := 4, entries := [1] }
    ∧ (read_force_constants_file envC phN "FORCE_CONSTANTS" false 0).1
        ≠ normalize_fc_shape_spec envC phN false (load_fc_raw envC phN "FORCE_CONSTANTS").1 := by
  refine ⟨by decide, by decide, by decide⟩

/-- C3 amended: the private force-constants file reader shape-normalizes as
follows: a tensor whose first two dimensions are equal, when the caller
requested compact layout, is reduced to compact; a tensor whose first two
dimensions are unequal, when the caller requested full layout, is expanded
to full; in every other case the tensor is returned unchanged. -/
theorem C3_shape_normalization (env : Env) (phonon : PhonopyState) (filename : String)
    (log_level : Nat) :
    ((load_fc_raw env phonon filename).1.rows = (load_fc_raw env phonon filename).1.cols →
      (read_force_constants_file env phonon filename true log_level).1
        = env.full_fc_to_compact_fc phonon (load_fc_raw env phonon filename).1
      ∧ (read_force_constants_file env phonon filename false log_level).1
        = (load_fc_raw env phonon filename).1)
    ∧ ((load_fc_raw env phonon filename).1.rows ≠ (load_fc_raw env phonon filename).1.cols →
      (read_force_constants_file env phonon filename false log_level).1
        = env.compact_fc_to_full_fc phonon (load_fc_raw env phonon filename).1
      ∧ (read_force_constants_file env phonon filename true log_level).1
        = (load_fc_raw env phonon filename).1) := by
  constructor
  · intro h
    constructor <;> simp [read_force_constants_file, normalize_fc_shape, h]
  · intro h
    constructor <;> simp [read_force_constants_file, normalize_fc_shape, h]

/-- C3 witness: a square tensor with the compact layout requested is reduced
to compact. -/
theorem C3_witness :
    (read_force_constants_file envC phN "FORCE_CONSTANTS" true 0).1
      = envC.full_fc_to_compact_fc phN (load_fc_raw envC phN "FORCE_CONSTANTS").1 :=
  ((C3_shape_normalization envC phN "FORCE_CONSTANTS" 0).1 (by decide)).1

/-- C6: when force-constant production signals the typed
forcesets-not-found failure, the production step does not raise (its error
component is none), it leaves the phonon object untouched, the
force-constants attribute in particular staying none, and it logs exactly
one note when verbose. -/
theorem C6_forcesets_not_found_nonfatal (env : Env) (phonon : PhonopyState)
    (fc_calculator fc_calculator_options : Option String)
    (symmetrize_fc is_compact_fc : Bool) (log_level : Nat)
    (h : env.produce_force_constants phonon (!is_compact_fc) fc_calculator
      fc_calculator_options = .error PhEngineErr.forcesetsNotFound) :
    (produce_force_constants env phonon fc_calculator fc_calculator_options
      symmetrize_fc is_compact_fc log_level).1 = phonon
    ∧ (produce_force_constants env phonon fc_calculator fc_calculator_options
      symmetrize_fc is_compact_fc log_level).1.force_constants = phonon.force_constants
    ∧ (produce_force_constants env phonon fc_calculator fc_calculator_options
      symmetrize_fc is_compact_fc log_level).2.2 = none
    ∧ (produce_force_constants env phonon fc_calculator fc_calculator_options
      symmetrize_fc is_compact_fc log_level).2.1
      = vprint log_level "Force constants not produced due to force set not found." := by
  refine ⟨?_, ?_, ?_, ?_⟩ <;> simp [produce_force_constants, h]

/-- C6 witness: with an engine that reports no force sets, production is
non-fatal and the object keeps no force constants. -/
theorem C6_witness :
    (produce_force_constants envN phN none none true true 0).1 = phN
    ∧ (produce_force_constants envN phN none none true true 0).1.force_constants
      = phN.force_constants
    ∧ (produce_force_constants envN phN none none true true 0).2.2 = none
    ∧ (produce_force_constants envN phN none none true true 0).2.1
      = vprint 0 "Force constants not produced due to force set not found." :=
  C6_forcesets_not_found_nonfatal envN phN none none true true 0 rfl

/-- C7: with no force constants installed and a dataset loaded from a
force-sets file, set_dataset_and_force_constants replaces the existing
dataset of the object with the loaded one regardless of verbosity; when the
previous dataset carried a first_atoms or displacements key and verbosity is
nonzero, a line noting that displacements were overwritten is printed. -/
theorem C7_dataset_overwrite (env : Env) (phonon : PhonopyState)
    (dataset : Option Dataset) (g : String)
    (fc_calculator fc_calculator_options : Option String)
    (produce_fc symmetrize_fc is_compact_fc use_pypolymlp : Bool) (log_level : Nat)
    (old : Dataset)
    (hfc : phonon.force_constants = none)
    (hseed : (seed_phonon env phonon dataset none use_pypolymlp).dataset = some old)
    (hkeys : (old.has_first_atoms || old.has_displacements) = true) :
    (set_dataset_and_force_constants env phonon dataset none none (some g)
      fc_calculator fc_calculator_options produce_fc symmetrize_fc is_compact_fc
      use_pypolymlp log_level).1.dataset
      = some (env.parse_FORCE_SETS phonon.supercell_natom g)
    ∧ (log_level ≠ 0 →
      Event.printed ("Displacements were overwritten by \"" ++ g ++ "\".")
        ∈ (set_dataset_and_force_constants env phonon dataset none none (some g)
          fc_calculator fc_calculator_options produce_fc symmetrize_fc is_compact_fc
          use_pypolymlp log_level).2.1) := by
  have h2 : (seed_phonon env phonon dataset none use_pypolymlp).force_constants = none := by
    rw [seed_phonon_fc]
    exact hfc
  constructor
  · by_cases hp : produce_fc = true
    · simp [set_dataset_and_force_constants, resolve_fc_source, h2, hseed, hkeys, hp,
        produce_force_constants_dataset]
    · simp [set_dataset_and_force_constants, resolve_fc_source, h2, hseed, hkeys, hp]
  · intro hll
    by_cases hp : produce_fc = true
    · simp [set_dataset_and_force_constants, resolve_fc_source, h2, hseed, hkeys, hp,
        vprint, hll]
    · simp [set_dataset_and_force_constants, resolve_fc_source, h2, hseed, hkeys, hp,
        vprint, hll]

/-- C7 witness: an object with a first_atoms dataset and an explicit
force-sets file has its dataset overwritten and the overwrite noted. -/
theorem C7_witness :
    (set_dataset_and_force_constants envN phD none none none (some "FORCE_SETS")
      none none true true true false 1).1.dataset
      = some (envN.parse_FORCE_SETS phD.supercell_natom "FORCE_SETS")
    ∧ ((1 : Nat) ≠ 0 →
      Event.printed ("Displacements were overwritten by \"" ++ "FORCE_SETS" ++ "\".")
        ∈ (set_dataset_and_force_constants envN phD none none none (some "FORCE_SETS")
          none none true true true false 1).2.1) :=
  C7_dataset_overwrite envN phD none "FORCE_SETS" none none true true true false 1
    { has_first_atoms := true, has_displacements := false, payload := 3 } rfl rfl rfl

/-- C1: force-data source resolution is strict: an explicit force-constants
filename wins (it is loaded and installed, and no force-sets file is ever
read, whatever force_sets_filename holds); otherwise an explicit force-sets
filename is read and nothing else; otherwise, the conventional files are
consulted only when the seeded object has neither forces nor force
constants, in the order FORCE_CONSTANTS, then force_constants.hdf5, then
FORCE_SETS; otherwise nothing is read. -/
theorem C1_force_data_resolution_order (env : Env) (phonon : PhonopyState)
    (dataset : Option Dataset) (fc : Option FC)
    (fc_calculator fc_calculator_options : Option String)
    (produce_fc symmetrize_fc is_compact_fc use_pypolymlp : Bool) (log_level : Nat) :
    (∀ f g,
      file_reads (set_dataset_and_force_constants env phonon dataset fc (some f) g
        fc_calculator fc_calculator_options produce_fc symmetrize_fc is_compact_fc
        use_pypolymlp log_level).2.1
        = (read_force_constants_file env (seed_phonon env phonon dataset fc use_pypolymlp)
            f is_compact_fc log_level).2
      ∧ (∀ n, Event.readForceSets n ∉
          (set_dataset_and_force_constants env phonon dataset fc (some f) g
            fc_calculator fc_calculator_options produce_fc symmetrize_fc is_compact_fc
            use_pypolymlp log_level).2.1)
      ∧ (set_dataset_and_force_constants env phonon dataset fc (some f) g
          fc_calculator fc_calculator_options produce_fc symmetrize_fc is_compact_fc
          use_pypolymlp log_level).1.force_constants
        = some (read_force_constants_file env
            (seed_phonon env phonon dataset fc use_pypolymlp) f is_compact_fc log_level).1)
    ∧ (∀ g,
      file_reads (set_dataset_and_force_constants env phonon dataset fc none (some g)
        fc_calculator fc_calculator_options produce_fc symmetrize_fc is_compact_fc
        use_pypolymlp log_level).2.1 = [Event.readForceSets g])
    ∧ (((seed_phonon env phonon dataset fc use_pypolymlp).forces ≠ none
        ∨ (seed_phonon env phonon dataset fc use_pypolymlp).force_constants ≠ none) →
      file_reads (set_dataset_and_force_constants env phonon dataset fc none none
        fc_calculator fc_calculator_options produce_fc symmetrize_fc is_compact_fc
        use_pypolymlp log_level).2.1 = [])
    ∧ ((seed_phonon env phonon dataset fc use_pypolymlp).forces = none →
      (seed_phonon env phonon dataset fc use_pypolymlp).force_constants = none →
      ("FORCE_CONSTANTS" ∈ env.files →
        file_reads (set_dataset_and_force_constants env phonon dataset fc none none
          fc_calculator fc_calculator_options produce_fc symmetrize_fc is_compact_fc
          use_pypolymlp log_level).2.1
          = (read_force_constants_file env (seed_phonon env phonon dataset fc use_pypolymlp)
              "FORCE_CONSTANTS" is_compact_fc log_level).2
        ∧ (set_dataset_and_force_constants env phonon dataset fc none none
            fc_calculator fc_calculator_options produce_fc symmetrize_fc is_compact_fc
            use_pypolymlp log_level).1.force_constants
          = some (read_force_constants_file env
              (seed_phonon env phonon dataset fc use_pypolymlp)
              "FORCE_CONSTANTS" is_compact_fc log_level).1)
      ∧ ("FORCE_CONSTANTS" ∉ env.files → "force_constants.hdf5" ∈ env.files →
        file_reads (set_dataset_and_force_constants env phonon dataset fc none none
          fc_calculator fc_calculator_options produce_fc symmetrize_fc is_compact_fc
          use_pypolymlp log_level).2.1
          = (read_force_constants_file env (seed_phonon env phonon dataset fc use_pypolymlp)
              "force_constants.hdf5" is_compact_fc log_level).2
        ∧ (set_dataset_and_force_constants env phonon dataset fc none none
            fc_calculator fc_calculator_options produce_fc symmetrize_fc is_compact_fc
            use_pypolymlp log_level).1.force_constants
          = some (read_force_constants_file env
              (seed_phonon env phonon dataset fc use_pypolymlp)
              "force_constants.hdf5" is_compact_fc log_level).1)
      ∧ ("FORCE_CONSTANTS" ∉ env.files → "force_constants.hdf5" ∉ env.files →
          "FORCE_SETS" ∈ env.files →
        file_reads (set_dataset_and_force_constants env phonon dataset fc none none
          fc_calculator fc_calculator_options produce_fc symmetrize_fc is_compact_fc
          use_pypolymlp log_level).2.1 = [Event.readForceSets "FORCE_SETS"])
      ∧ ("FORCE_CONSTANTS" ∉ env.files → "force_constants.hdf5" ∉ env.files →
          "FORCE_SETS" ∉ env.files →
        file_reads (set_dataset_and_force_constants env phonon dataset fc none none
          fc_calculator fc_calculator_options produce_fc symmetrize_fc is_compact_fc
          use_pypolymlp log_level).2.1 = [])) := by
  refine ⟨fun f g => ?_, fun g => ?_, fun h => ?_, fun hforces hfc => ?_⟩
  · refine ⟨?_, fun n => ?_, ?_⟩
    · simp [set_dataset_and_force_constants, resolve_fc_source, read_force_constants_file,
        file_reads_append, file_reads_load_fc_raw, file_reads_vprint]
    · simp [set_dataset_and_force_constants, resolve_fc_source, read_force_constants_file,
        vprint]
      rcases load_fc_raw_events env (seed_phonon env phonon dataset fc use_pypolymlp) f
        with hl | hl <;> simp [hl]
    · simp [set_dataset_and_force_constants, resolve_fc_source, read_force_constants_file]
  · by_cases hc : (seed_phonon env phonon dataset fc use_pypolymlp).force_constants = none
    · by_cases hp : produce_fc = true <;>
        simp [set_dataset_and_force_constants, resolve_fc_source, hc, hp,
          file_reads_append, file_reads_vprint, file_reads_produce, file_reads_nil,
          file_reads_readForceSets, file_reads_ite_prints]
    · simp [set_dataset_and_force_constants, resolve_fc_source, hc,
        file_reads_append, file_reads_vprint, file_reads_nil, file_reads_readForceSets]
  · have hcond : ¬ ((seed_phonon env phonon dataset fc use_pypolymlp).forces = none
        ∧ (seed_phonon env phonon dataset fc use_pypolymlp).force_constants = none) := by
      rcases h with h | h
      · exact fun hh => h hh.1
      · exact fun hh => h hh.2
    by_cases hc : (seed_phonon env phonon dataset fc use_pypolymlp).force_constants = none
    · have hf : (seed_phonon env phonon dataset fc use_pypolymlp).forces ≠ none :=
        fun hh => hcond ⟨hh, hc⟩
      by_cases hp : produce_fc = true <;>
        simp [set_dataset_and_force_constants, resolve_fc_source, hf, hc, hp,
          file_reads_append, file_reads_vprint, file_reads_produce, file_reads_nil,
          file_reads_ite_prints]
    · simp [set_dataset_and_force_constants, resolve_fc_source, hc,
        file_reads_append, file_reads_vprint, file_reads_nil]
  · refine ⟨fun h1 => ?_, fun h1 h2 => ?_, fun h1 h2 h3 => ?_, fun h1 h2 h3 => ?_⟩
    · constructor
      · simp [set_dataset_and_force_constants, resolve_fc_source, hforces, hfc, h1,
          read_force_constants_file, file_reads_append, file_reads_load_fc_raw,
          file_reads_vprint]
      · simp [set_dataset_and_force_constants, resolve_fc_source, hforces, hfc, h1,
          read_force_constants_file]
    · constructor
      · simp [set_dataset_and_force_constants, resolve_fc_source, hforces, hfc, h1, h2,
          read_force_constants_file, file_reads_append, file_reads_load_fc_raw,
          file_reads_vprint]
      · simp [set_dataset_and_force_constants, resolve_fc_source, hforces, hfc, h1, h2,
          read_force_constants_file]
    · by_cases hp : produce_fc = true <;>
        simp [set_dataset_and_force_constants, resolve_fc_source, hforces, hfc, h1, h2, h3,
          hp, file_reads_append, file_reads_vprint, file_reads_produce, file_reads_nil,
          file_reads_readForceSets, file_reads_ite_prints]
    · by_cases hp : produce_fc = true <;>
        simp [set_dataset_and_force_constants, resolve_fc_source, hforces, hfc, h1, h2, h3,
          hp, file_reads_append, file_reads_vprint, file_reads_produce, file_reads_nil,
          file_reads_ite_prints]

/-- C1 witness: with both an explicit force-constants filename and an
explicit force-sets filename, the force-sets file is never read. -/
theorem C1_witness :
    Event.readForceSets "FORCE_SETS" ∉
      (set_dataset_and_force_constants envN phN none none (some "FORCE_CONSTANTS")
        (some "FORCE_SETS") none none true true true false 0).2.1 :=
  ((C1_force_data_resolution_order envN phN none none none none true true true false 0).1
    "FORCE_CONSTANTS" (some "FORCE_SETS")).2.1 "FORCE_SETS"

end PhonopyLoad
